import Mathlib

/-!
Verification development for the Azure cost-analysis engine
(src/utils.py, src/data_processing_utils.py).

Dates are modelled as proleptic Gregorian ordinals, exactly as in
CPython's datetime module (Lib/datetime.py), which is the date library
the source code uses: ordinal 1 is 0001-01-01, date.weekday() is
(ordinal + 6) % 7, and strftime('%Y%m%d') renders the packed integer
y*10000 + m*100 + d.  Costs are modelled as rationals.
-/

/-- Leap-year predicate, from CPython datetime._is_leap. -/
def isLeap (y : Int) : Prop := y % 4 = 0 ∧ (y % 100 ≠ 0 ∨ y % 400 = 0)

instance isLeapDecidable (y : Int) : Decidable (isLeap y) := by
  unfold isLeap; exact inferInstance

/-- Cumulative days before month m in a non-leap year, CPython _DAYS_BEFORE_MONTH. -/
def DBM (m : Int) : Int :=
  if m = 1 then 0 else if m = 2 then 31 else if m = 3 then 59 else if m = 4 then 90
  else if m = 5 then 120 else if m = 6 then 151 else if m = 7 then 181 else if m = 8 then 212
  else if m = 9 then 243 else if m = 10 then 273 else if m = 11 then 304 else 334

/-- Days in month m of a non-leap year, CPython _DAYS_IN_MONTH. -/
def DIM (m : Int) : Int :=
  if m = 2 then 28 else if m = 4 ∨ m = 6 ∨ m = 9 ∨ m = 11 then 30 else 31

/-- Number of days before January 1st of year y, CPython datetime._days_before_year. -/
def days_before_year (y : Int) : Int :=
  (y - 1) * 365 + (y - 1) / 4 - (y - 1) / 100 + (y - 1) / 400

/-- Days in the given month of the given year, CPython datetime._days_in_month. -/
def days_in_month (y m : Int) : Int :=
  if m = 2 ∧ isLeap y then 29 else DIM m

/-- Days in the given year preceding the first day of the given month,
CPython datetime._days_before_month. -/
def days_before_month (y m : Int) : Int :=
  DBM m + (if 2 < m ∧ isLeap y then 1 else 0)

/-- Proleptic Gregorian ordinal of the date, CPython datetime._ymd2ord. -/
def ymd2ord (y m d : Int) : Int :=
  days_before_year y + days_before_month y m + d

/-- Month and day from a 0-based day-of-year N and a leap flag: the month-search
step at the end of CPython datetime._ord2ymd. -/
def monthFromDOY (N : Int) (L : Bool) : Int × Int :=
  let month := (N + 50) / 32
  let preceding := DBM month + (if 2 < month ∧ L = true then 1 else 0)
  if N < preceding then
    (month - 1, N - (preceding - (DIM (month - 1) + (if month - 1 = 2 ∧ L = true then 1 else 0))) + 1)
  else
    (month, N - preceding + 1)

/-- Year, month, day from a proleptic Gregorian ordinal, CPython datetime._ord2ymd. -/
def ord2ymd (nOrd : Int) : Int × Int × Int :=
  let n0 := nOrd - 1
  let n400 := n0 / 146097
  let r400 := n0 % 146097
  let n100 := r400 / 36524
  let r100 := r400 % 36524
  let n4 := r100 / 1461
  let r4 := r100 % 1461
  let n1 := r4 / 365
  let rest := r4 % 365
  let year := n400 * 400 + 1 + n100 * 100 + n4 * 4 + n1
  if n1 = 4 ∨ n100 = 4 then (year - 1, 12, 31)
  else
    let md := monthFromDOY rest (decide (n1 = 3 ∧ (n4 ≠ 24 ∨ n100 = 3)))
    (year, md.1, md.2)

/-- Python date.weekday(): 0 = Monday, ..., 6 = Sunday. -/
def pyWeekday (nOrd : Int) : Int := (nOrd + 6) % 7

/-- Saturday-or-Sunday test, the weekday() >= 5 check of process_costs. -/
def isWeekendOrd (nOrd : Int) : Bool := decide (5 ≤ pyWeekday nOrd)

/-- strftime('%Y%m%d') of the date with the given ordinal, read as an integer. -/
def dateInt (nOrd : Int) : Int :=
  (ord2ymd nOrd).1 * 10000 + (ord2ymd nOrd).2.1 * 100 + (ord2ymd nOrd).2.2

/-- datetime.strptime(str(v), '%Y%m%d').weekday() for a packed YYYYMMDD integer v. -/
def weekdayOfYYYYMMDD (v : Int) : Int :=
  pyWeekday (ymd2ord (v / 10000) ((v / 100) % 100) (v % 100))

def monthOK (N : Int) (L : Bool) : Prop :=
  1 ≤ (monthFromDOY N L).1 ∧ (monthFromDOY N L).1 ≤ 12 ∧
  1 ≤ (monthFromDOY N L).2 ∧ (monthFromDOY N L).2 ≤ 31 ∧
  DBM (monthFromDOY N L).1 + (if 2 < (monthFromDOY N L).1 ∧ L = true then 1 else 0)
    + (monthFromDOY N L).2 = N + 1

instance monthOKDecidable (N : Int) (L : Bool) : Decidable (monthOK N L) := by
  unfold monthOK; exact inferInstance

set_option maxRecDepth 4096 in
theorem monthFromDOY_correct (N : Int) (L : Bool) (h0 : 0 ≤ N)
    (h1 : N ≤ 364 + (if L then 1 else 0)) : monthOK N L := by
  have key : ∀ k : Nat, k < 366 → ∀ b : Bool,
      ((k : Int) ≤ 364 + (if b then 1 else 0)) → monthOK (k : Int) b := by decide
  obtain ⟨k, rfl⟩ : ∃ k : Nat, N = (k : Int) :=
    ⟨N.toNat, (Int.toNat_of_nonneg h0).symm⟩
  have hite : (if L then (1 : Int) else 0) ≤ 1 := by cases L <;> norm_num
  have hk : k < 366 := by omega
  exact key k hk L h1

theorem ord2ymd_branchA (nOrd n400 r400 n100 r100 n4 r4 n1 year : Int)
    (e400 : n400 = (nOrd - 1) / 146097) (f400 : r400 = (nOrd - 1) % 146097)
    (e100 : n100 = r400 / 36524) (f100 : r100 = r400 % 36524)
    (e4 : n4 = r100 / 1461) (f4 : r4 = r100 % 1461)
    (e1 : n1 = r4 / 365)
    (hy : year = n400 * 400 + 1 + n100 * 100 + n4 * 4 + n1)
    (hbr : n1 = 4 ∨ n100 = 4) (hord : 1 ≤ nOrd) :
    1 ≤ year - 1 ∧ 1 ≤ (12 : Int) ∧ (12 : Int) ≤ 12 ∧ 1 ≤ (31 : Int) ∧ (31 : Int) ≤ 31 ∧
    ymd2ord (year - 1) 12 31 = nOrd := by
  unfold ymd2ord days_before_year days_before_month DBM
  norm_num
  rcases hbr with hc1 | hc1
  · have hn4 : n4 ≤ 23 := by omega
    have hn100 : n100 ≤ 3 := by omega
    have hj : (year - 1 - 1) / 4 = 100 * n400 + 25 * n100 + n4 := by omega
    have hk : (year - 1 - 1) / 100 = 4 * n400 + n100 := by omega
    have hl : (year - 1 - 1) / 400 = n400 := by omega
    constructor
    · omega
    · split_ifs with hlp
      · omega
      · exfalso; simp only [isLeap, not_and, not_or] at hlp; omega
  · have hz : n4 = 0 ∧ n1 = 0 ∧ r4 = 0 ∧ r100 = 0 := by omega
    have hj : (year - 1 - 1) / 4 = 100 * n400 + 99 := by omega
    have hk : (year - 1 - 1) / 100 = 4 * n400 + 3 := by omega
    have hl : (year - 1 - 1) / 400 = n400 := by omega
    constructor
    · omega
    · split_ifs with hlp
      · omega
      · exfalso; simp only [isLeap, not_and, not_or] at hlp; omega

theorem ord2ymd_branchB (nOrd n400 r400 n100 r100 n4 r4 n1 rest m d : Int) (L : Bool)
    (e400 : n400 = (nOrd - 1) / 146097) (f400 : r400 = (nOrd - 1) % 146097)
    (e100 : n100 = r400 / 36524) (f100 : r100 = r400 % 36524)
    (e4 : n4 = r100 / 1461) (f4 : r4 = r100 % 1461)
    (e1 : n1 = r4 / 365) (frest : rest = r4 % 365)
    (hL : L = decide (n1 = 3 ∧ (n4 ≠ 24 ∨ n100 = 3)))
    (hbr : ¬(n1 = 4 ∨ n100 = 4)) (hord : 1 ≤ nOrd)
    (hmd : monthFromDOY rest L = (m, d)) :
    1 ≤ n400 * 400 + 1 + n100 * 100 + n4 * 4 + n1 ∧ 1 ≤ m ∧ m ≤ 12 ∧ 1 ≤ d ∧ d ≤ 31 ∧
    ymd2ord (n400 * 400 + 1 + n100 * 100 + n4 * 4 + n1) m d = nOrd := by
  have hm := monthFromDOY_correct rest L (by omega)
    (by have : (0 : Int) ≤ (if L then 1 else 0) := by cases L <;> norm_num
        omega)
  unfold monthOK at hm
  rw [hmd] at hm
  dsimp only at hm
  obtain ⟨hm1, hm2, hd1, hd2, hsum⟩ := hm
  have hleap : isLeap (n400 * 400 + 1 + n100 * 100 + n4 * 4 + n1) ↔ (L = true) := by
    subst hL
    rw [decide_eq_true_iff]
    unfold isLeap
    constructor
    · intro hx; omega
    · intro hx; omega
  unfold ymd2ord days_before_year days_before_month
  simp only [hleap]
  refine ⟨by omega, hm1, hm2, hd1, hd2, ?_⟩
  have hb3 : n100 ≤ 3 := by omega
  have hc24 : n4 ≤ 24 := by omega
  have he3 : n1 ≤ 3 := by omega
  have hj : (n400 * 400 + 1 + n100 * 100 + n4 * 4 + n1 - 1) / 4
      = 100 * n400 + 25 * n100 + n4 := by omega
  have hk : (n400 * 400 + 1 + n100 * 100 + n4 * 4 + n1 - 1) / 100
      = 4 * n400 + n100 := by omega
  have hl2 : (n400 * 400 + 1 + n100 * 100 + n4 * 4 + n1 - 1) / 400
      = n400 := by omega
  omega

theorem ord2ymd_correct (nOrd : Int) (h : 1 ≤ nOrd) :
    1 ≤ (ord2ymd nOrd).1 ∧ 1 ≤ (ord2ymd nOrd).2.1 ∧ (ord2ymd nOrd).2.1 ≤ 12 ∧
    1 ≤ (ord2ymd nOrd).2.2 ∧ (ord2ymd nOrd).2.2 ≤ 31 ∧
    ymd2ord (ord2ymd nOrd).1 (ord2ymd nOrd).2.1 (ord2ymd nOrd).2.2 = nOrd := by
  unfold ord2ymd
  dsimp only
  split_ifs with hbr
  · exact ord2ymd_branchA nOrd _ _ _ _ _ _ _ _ rfl rfl rfl rfl rfl rfl rfl rfl hbr h
  · rcases hq : monthFromDOY ((nOrd - 1) % 146097 % 36524 % 1461 % 365)
        (decide ((nOrd - 1) % 146097 % 36524 % 1461 / 365 = 3 ∧
          ((nOrd - 1) % 146097 % 36524 / 1461 ≠ 24 ∨
            (nOrd - 1) % 146097 / 36524 = 3))) with ⟨m, d⟩
    dsimp only
    exact ord2ymd_branchB nOrd _ _ _ _ _ _ _ _ m d _
      rfl rfl rfl rfl rfl rfl rfl rfl rfl hbr h hq

theorem weekday_of_dateInt (nOrd : Int) (h : 1 ≤ nOrd) :
    weekdayOfYYYYMMDD (dateInt nOrd) = pyWeekday nOrd := by
  obtain ⟨hy, hm1, hm2, hd1, hd2, hord⟩ := ord2ymd_correct nOrd h
  unfold weekdayOfYYYYMMDD dateInt
  have e1 : ((ord2ymd nOrd).1 * 10000 + (ord2ymd nOrd).2.1 * 100 + (ord2ymd nOrd).2.2) / 10000
      = (ord2ymd nOrd).1 := by omega
  have e2 : (((ord2ymd nOrd).1 * 10000 + (ord2ymd nOrd).2.1 * 100 + (ord2ymd nOrd).2.2) / 100) % 100
      = (ord2ymd nOrd).2.1 := by omega
  have e3 : ((ord2ymd nOrd).1 * 10000 + (ord2ymd nOrd).2.1 * 100 + (ord2ymd nOrd).2.2) % 100
      = (ord2ymd nOrd).2.2 := by omega
  rw [e1, e2, e3, hord]

/-!
Cost engine (src/utils.py).  Costs are rationals; a group series is an
association list of (date, cost) observations kept in dict insertion order.
-/

/-- check_alert (utils.py line 155): "Yes" iff the cost strictly exceeds the
average plus the flat 0.01 epsilon. -/
def check_alert (cost_yesterday average_cost : ℚ) : String :=
  if cost_yesterday > average_cost + 1/100 then "Yes" else "No"

/-- next((cost for date, cost in costs if date == d), 0): the first
observation with the given date, 0 when none exists. -/
def lookupCost (costs : List (Int × ℚ)) (d : Int) : ℚ :=
  match costs.find? (fun p => decide (p.1 = d)) with
  | some p => p.2
  | none => 0

/-- The calendar days start_date + n for n in
range((end_date - start_date).days + 1), as ordinals. -/
def windowDays (s e : Int) : List Int :=
  (List.range (e - s + 1).toNat).map (fun k : Nat => s + (k : Int))

/-- The day loop of process_costs: every window day's looked-up cost is
appended to weekday_costs or to weekend_costs by the day's own class. -/
def splitCosts (costs : List (Int × ℚ)) : List Int → List ℚ × List ℚ
  | [] => ([], [])
  | day :: ds =>
      let rest := splitCosts costs ds
      let c := lookupCost costs (dateInt day)
      if isWeekendOrd day then (rest.1, c :: rest.2) else (c :: rest.1, rest.2)

/-- One row of the result list built by process_costs (utils.py 206-216). -/
structure ResultRecord where
  groupValue : String
  averageCost : ℚ
  analysisDateCost : ℚ
  alert : String
  percentVariation : ℚ
  costDifference : ℚ
  numberOfDays : Nat
  analysisDate : Int
deriving DecidableEq, Repr

/-- process_costs (utils.py 163-218): classify the analysis date by parsing
the YYYYMMDD string, zero-fill the calendar window per group, keep the
weekday or the weekend day costs by the analysis date's class, and compute
average, alert, percent variation and difference. -/
def process_costs (costs_by_group : List (String × List (Int × ℚ)))
    (start_date end_date : Int) (analysisDateInt : Int) : List ResultRecord :=
  costs_by_group.map (fun g =>
    let split := splitCosts g.2 (windowDays start_date end_date)
    let total_days : Nat :=
      if 5 ≤ weekdayOfYYYYMMDD analysisDateInt then split.2.length else split.1.length
    let total_cost : ℚ :=
      if 5 ≤ weekdayOfYYYYMMDD analysisDateInt then split.2.sum else split.1.sum
    let average_cost : ℚ := if 0 < total_days then total_cost / (total_days : ℚ) else 0
    let cost_on_analysis_date := lookupCost g.2 analysisDateInt
    { groupValue := g.1
      averageCost := average_cost
      analysisDateCost := cost_on_analysis_date
      alert := check_alert cost_on_analysis_date average_cost
      percentVariation :=
        if average_cost ≠ 0 then
          ((cost_on_analysis_date - average_cost) / average_cost) * 100
        else 0
      costDifference := cost_on_analysis_date - average_cost
      numberOfDays := total_days
      analysisDate := end_date })

/-- costs_by_group[group].append((date, cost)) on a Python dict of lists,
modelled as an association list in insertion order. -/
def dictAppend (m : List (String × List (Int × ℚ))) (k : String) (obs : Int × ℚ) :
    List (String × List (Int × ℚ)) :=
  match m with
  | [] => [(k, [obs])]
  | (k0, os) :: rest =>
      if k0 = k then (k0, os ++ [obs]) :: rest else (k0, os) :: dictAppend rest k obs

/-- One raw row of a dimension-mode response: result[0] = cost,
result[1] = date, result[2] = group value. -/
structure CostRow where
  cost : ℚ
  date : Int
  group : String
deriving DecidableEq, Repr

/-- The row loop of analyze_costs (utils.py 282-292): partition into
costs_by_group. -/
def buildGroups (rows : List CostRow) : List (String × List (Int × ℚ)) :=
  rows.foldl (fun m r => dictAppend m r.group (r.date, r.cost)) []

/-- The running total_cost_analysis_date of the same loop. -/
def totalOnDate (rows : List CostRow) (analysisDateInt : Int) : ℚ :=
  rows.foldl (fun t r => if r.date = analysisDateInt then t + r.cost else t) 0

/-- analyze_costs (utils.py 253-303) after a successful fetch:
analysis_date_str is end_date.strftime('%Y%m%d'). -/
def analyze_costs_rows (rows : List CostRow) (start_date end_date : Int) :
    List ResultRecord × ℚ :=
  (process_costs (buildGroups rows) start_date end_date (dateInt end_date),
   totalOnDate rows (dateInt end_date))

/-- One raw row of a tag-mode response: result[0] = cost, result[1] = date,
result[3] = tag value (absent is none). -/
structure TagRow where
  cost : ℚ
  date : Int
  tagValue : Option String
deriving DecidableEq, Repr

/-- Python truthiness of the tag value: None and the empty string are falsy. -/
def truthyTag : Option String → Bool
  | none => false
  | some s => s != ""

def tagKeyOf : Option String → String
  | none => ""
  | some s => s

/-- The row loop of analyze_costs_by_tag (utils.py 334-345): a falsy tag
value skips the row entirely; otherwise the row joins its tag-value group
and, on the analysis date, the running total. -/
def buildTags (rows : List TagRow) (analysisDateInt : Int) :
    List (String × List (Int × ℚ)) × ℚ :=
  rows.foldl
    (fun acc r =>
      if truthyTag r.tagValue then
        (dictAppend acc.1 (tagKeyOf r.tagValue) (r.date, r.cost),
         if r.date = analysisDateInt then acc.2 + r.cost else acc.2)
      else acc)
    ([], 0)

/-- analyze_costs_by_tag (utils.py 305-356) after a successful fetch. -/
def analyze_costs_by_tag_rows (rows : List TagRow) (start_date end_date : Int) :
    List ResultRecord × ℚ :=
  (process_costs (buildTags rows (dateInt end_date)).1 start_date end_date (dateInt end_date),
   (buildTags rows (dateInt end_date)).2)

/-- analyze_costs_by_subs (utils.py 358-398) after a successful fetch: the
whole subscription is one record whose baseline is the plain mean of the
observation list (sum of costs over number of rows). -/
def analyze_costs_by_subs_rows (subscription_name : String)
    (rows : List (Int × ℚ)) (_start_date end_date : Int) : ResultRecord :=
  let total_cost : ℚ := (rows.map (fun p => p.2)).sum
  let total_days : Nat := rows.length
  let average_cost : ℚ := if 0 < total_days then total_cost / (total_days : ℚ) else 0
  let cost_on_analysis_date := lookupCost rows (dateInt end_date)
  { groupValue := subscription_name
    averageCost := average_cost
    analysisDateCost := cost_on_analysis_date
    alert := check_alert cost_on_analysis_date average_cost
    percentVariation :=
      if average_cost ≠ 0 then
        ((cost_on_analysis_date - average_cost) / average_cost) * 100
      else 0
    costDifference := cost_on_analysis_date - average_cost
    numberOfDays := total_days
    analysisDate := end_date }

/-- One row of the result list of data_processing_utils.process_costs,
which has no Number of Days column. -/
structure DpuRecord where
  groupValue : String
  averageCost : ℚ
  analysisDateCost : ℚ
  alert : String
  percentVariation : ℚ
  costDifference : ℚ
deriving DecidableEq, Repr

/-- check_alert (data_processing_utils.py): plain strict comparison, no epsilon. -/
def dpu_check_alert (cost_yesterday average_cost : ℚ) : String :=
  if cost_yesterday > average_cost then "Yes" else "No"

/-- statistics.mean of a list of rationals (the caller never passes an
empty list; statistics.mean would raise there). -/
def statistics_mean (l : List ℚ) : ℚ := l.sum / (l.length : ℚ)

/-- process_costs (data_processing_utils.py 37-73): the baseline is the
plain mean over every observation of the group, duplicates included. -/
def dpu_process_costs (costs_by_group : List (String × List (Int × ℚ)))
    (analysisDateInt : Int) : List DpuRecord :=
  costs_by_group.map (fun g =>
    let average_cost := statistics_mean (g.2.map (fun p => p.2))
    let cost_on_analysis_date := lookupCost g.2 analysisDateInt
    { groupValue := g.1
      averageCost := average_cost
      analysisDateCost := cost_on_analysis_date
      alert := dpu_check_alert cost_on_analysis_date average_cost
      percentVariation :=
        if average_cost ≠ 0 then
          ((cost_on_analysis_date - average_cost) / average_cost) * 100
        else 0
      costDifference := cost_on_analysis_date - average_cost })

/-- An upstream Cost Management response: either properties.rows is absent,
or it carries the row list. -/
inductive ApiResponse where
  | missingRows : ApiResponse
  | withRows : List CostRow → ApiResponse
deriving DecidableEq

/-- The value request_and_process (utils.py 221-251) hands back: the Python
tuple (None, 0) when properties.rows is absent, else the data payload. -/
inductive RequestAndProcessReturn where
  | pairNoneZero : RequestAndProcessReturn
  | payload : List CostRow → RequestAndProcessReturn
deriving DecidableEq

def request_and_process : ApiResponse → RequestAndProcessReturn
  | .missingRows => .pairNoneZero
  | .withRows rows => .payload rows

/-- Python `data is None` applied to that value: the tuple (None, 0) is not
None, and neither is the payload dict. -/
def pyIsNone : RequestAndProcessReturn → Bool
  | .pairNoneZero => false
  | .payload _ => false

/-- Outcome of one analyze_costs call, the uncaught TypeError path included. -/
inductive AnalyzeOutcome where
  | noCostFound : ℚ → AnalyzeOutcome
  | ok : List ResultRecord → ℚ → AnalyzeOutcome
  | typeError : AnalyzeOutcome
deriving DecidableEq

/-- analyze_costs (utils.py 253-303) from the upstream response on: the
`data is None` check, then the data['properties']['rows'] subscription
(which on the tuple (None, 0) raises TypeError: tuple indices must be
integers), then the row loop, process_costs, and the df.empty fallback. -/
def analyze_costs_outcome (resp : ApiResponse) (start_date end_date : Int) :
    AnalyzeOutcome :=
  let data := request_and_process resp
  if pyIsNone data then .noCostFound 0
  else
    match data with
    | .pairNoneZero => .typeError
    | .payload rows =>
        let res := analyze_costs_rows rows start_date end_date
        if res.1 = [] then .noCostFound res.2 else .ok res.1 res.2

/-- Split a character list at every dash, like str.split('-'). -/
def splitDash (l : List Char) : List (List Char) :=
  match l with
  | [] => [[]]
  | c :: cs =>
      match splitDash cs with
      | [] => [[c]]
      | g :: gs => if c = '-' then [] :: g :: gs else (c :: g) :: gs

/-- Decimal value of a nonempty all-digit character group, else none. -/
def digitsVal (l : List Char) : Option Nat :=
  if l ≠ [] ∧ l.all (fun c => c.isDigit) then
    some (l.foldl (fun acc c => acc * 10 + (c.toNat - 48)) 0)
  else none

/-- datetime.strptime(s, '%Y-%m-%d'), modelled on well-formed inputs: three
dash-separated decimal fields forming a valid calendar date inside
datetime's year range 1..9999; anything else fails (ValueError → none). -/
def strptime_iso (s : String) : Option Int :=
  match splitDash s.data with
  | [ys, ms, ds] =>
      match digitsVal ys, digitsVal ms, digitsVal ds with
      | some y, some m, some d =>
          if 1 ≤ (y : Int) ∧ (y : Int) ≤ 9999 ∧ 1 ≤ (m : Int) ∧ (m : Int) ≤ 12 ∧
              1 ≤ (d : Int) ∧ (d : Int) ≤ days_in_month (y : Int) (m : Int) then
            some (ymd2ord (y : Int) (m : Int) (d : Int))
          else none
      | _, _, _ => none
  | _ => none

/-- get_analysis_timeframe (utils.py 106-124): end_date is the parsed
explicit date, else the UTC clock date minus one day; start_date is
end_date minus period days; (start_date, end_date) is returned, none on a
parse failure (ValueError). -/
def get_analysis_timeframe (start_date_str : Option String) (period : Int)
    (utcnowOrd : Int) : Option (Int × Int) :=
  match start_date_str with
  | some s =>
      match strptime_iso s with
      | some e => some (e - period, e)
      | none => none
  | none => some (utcnowOrd - 1 - period, utcnowOrd - 1)

/-- Specification-side list of calendar days of the window whose weekend
class equals the analysis date's class (spec section 4.3). -/
def matchingClassDays (s e : Int) (weekendClass : Bool) : List Int :=
  (windowDays s e).filter (fun day => isWeekendOrd day == weekendClass)

/-- Specification-side weekday-class-restricted baseline: sum of looked-up
costs over matching days divided by their count, and (0, 0) when no
matching day exists. -/
def aggregate_spec (costs : List (Int × ℚ)) (s e : Int) (weekendClass : Bool) :
    ℚ × Nat :=
  let ds := matchingClassDays s e weekendClass
  if ds.length = 0 then (0, 0)
  else ((ds.map (fun day => lookupCost costs (dateInt day))).sum / (ds.length : ℚ),
        ds.length)

/-!
Theorems.
-/

theorem splitCosts_eq (costs : List (Int × ℚ)) (l : List Int) :
    splitCosts costs l =
      ((l.filter (fun day => !isWeekendOrd day)).map (fun day => lookupCost costs (dateInt day)),
       (l.filter (fun day => isWeekendOrd day)).map (fun day => lookupCost costs (dateInt day))) := by
  induction l with
  | nil => rfl
  | cons day ds ih =>
      simp only [splitCosts, ih, List.filter_cons]
      cases h : isWeekendOrd day <;> simp [h]

theorem mem_windowDays (s e d : Int) : d ∈ windowDays s e ↔ s ≤ d ∧ d ≤ e := by
  unfold windowDays
  rw [List.mem_map]
  constructor
  · rintro ⟨k, hk, rfl⟩
    rw [List.mem_range] at hk
    omega
  · intro hd
    refine ⟨(d - s).toNat, ?_, ?_⟩
    · rw [List.mem_range]; omega
    · omega

theorem process_costs_avg_days (costs_by_group : List (String × List (Int × ℚ)))
    (s e a : Int) :
    (process_costs costs_by_group s e a).map (fun r => (r.averageCost, (r.numberOfDays : Nat)))
      = costs_by_group.map (fun g =>
          aggregate_spec g.2 s e (decide (5 ≤ weekdayOfYYYYMMDD a))) := by
  unfold process_costs aggregate_spec matchingClassDays
  rw [List.map_map]
  apply List.map_congr_left
  intro g _
  dsimp only [Function.comp]
  rw [splitCosts_eq]
  by_cases hw : 5 ≤ weekdayOfYYYYMMDD a
  · simp only [if_pos hw, decide_eq_true hw, beq_true]
    rcases Nat.eq_zero_or_pos ((windowDays s e).filter (fun day => isWeekendOrd day)).length
      with hz | hz
    · simp [hz, List.length_map, if_neg (by omega : ¬ (0:Nat) < 0)]
    · have hnz : ¬ ((windowDays s e).filter (fun day => isWeekendOrd day)).length = 0 := by
        omega
      simp only [List.length_map, if_pos hz, if_neg hnz]
  · simp only [if_neg hw, decide_eq_false hw, beq_false]
    rcases Nat.eq_zero_or_pos ((windowDays s e).filter (fun day => !isWeekendOrd day)).length
      with hz | hz
    · simp [hz, List.length_map, if_neg (by omega : ¬ (0:Nat) < 0)]
    · have hnz : ¬ ((windowDays s e).filter (fun day => !isWeekendOrd day)).length = 0 := by
        omega
      simp only [List.length_map, if_pos hz, if_neg hnz]

/-- C1: for every group series and window, process_costs classifies the
analysis date as weekend (weekday() >= 5) or weekday; every calendar day of
the inclusive window is looked up in the series with 0 for a missing day;
only the days whose class matches the analysis date's class are kept;
average_cost is their sum over their count, and with no matching day the
average is 0 over 0 days.  Stated as: the (average, days) pair of every
record equals the specification-side aggregate_spec of that group. -/
theorem C1_weekday_class_baseline (costs_by_group : List (String × List (Int × ℚ)))
    (s e a : Int) :
    (process_costs costs_by_group s e a).map (fun r => (r.averageCost, (r.numberOfDays : Nat)))
      = costs_by_group.map (fun g =>
          aggregate_spec g.2 s e (decide (5 ≤ weekdayOfYYYYMMDD a))) :=
  process_costs_avg_days costs_by_group s e a

/-- C2: check_alert returns "Yes" exactly when the analysis-date cost
strictly exceeds average_cost + 0.01; equality with the average or with
average + epsilon gives "No", and a cost at or below the baseline never
alerts. -/
theorem C2_alert_flat_epsilon (c a : ℚ) :
    (check_alert c a = "Yes" ↔ c > a + 1/100) ∧
    (c = a → check_alert c a = "No") ∧
    (c = a + 1/100 → check_alert c a = "No") ∧
    (c ≤ a → check_alert c a = "No") := by
  unfold check_alert
  refine ⟨?_, ?_, ?_, ?_⟩
  · split_ifs with h
    · exact ⟨fun _ => h, fun _ => rfl⟩
    · exact ⟨fun hc => absurd hc (by decide), fun hc => absurd hc h⟩
  · intro hc; subst hc
    rw [if_neg (by linarith)]
  · intro hc; subst hc
    rw [if_neg (by linarith)]
  · intro hc
    rw [if_neg (by linarith)]

/-- C2 witness at concrete costs. -/
theorem C2_alert_flat_epsilon_witness :
    check_alert 5 5 = "No" ∧ check_alert (5 + 1/100) 5 = "No" ∧
    check_alert (5 + 1/100 + 1/1000) 5 = "Yes" ∧ check_alert 4 5 = "No" :=
  ⟨(C2_alert_flat_epsilon 5 5).2.1 rfl,
   (C2_alert_flat_epsilon (5 + 1/100) 5).2.2.1 rfl,
   (C2_alert_flat_epsilon (5 + 1/100 + 1/1000) 5).1.mpr (by norm_num),
   (C2_alert_flat_epsilon 4 5).2.2.2 (by norm_num)⟩

/-- C3: in every record emitted by process_costs, cost_difference is the
analysis-date cost minus the average; percent_variation is the relative
difference times 100 when the average is nonzero and exactly 0 when the
average is 0, so the division never runs on a zero baseline; with a zero
average and an analysis-date cost of 50, percent_variation is 0,
cost_difference is 50, and the alert fires. -/
theorem C3_zero_baseline_safety (costs_by_group : List (String × List (Int × ℚ)))
    (s e a : Int) (r : ResultRecord) (hr : r ∈ process_costs costs_by_group s e a) :
    r.costDifference = r.analysisDateCost - r.averageCost ∧
    (r.averageCost ≠ 0 →
      r.percentVariation = ((r.analysisDateCost - r.averageCost) / r.averageCost) * 100) ∧
    (r.averageCost = 0 → r.percentVariation = 0) ∧
    (r.averageCost = 0 → r.analysisDateCost = 50 →
      r.percentVariation = 0 ∧ r.costDifference = 50 ∧ r.alert = "Yes") := by
  unfold process_costs at hr
  rw [List.mem_map] at hr
  obtain ⟨g, hg, rfl⟩ := hr
  dsimp only
  refine ⟨rfl, ?_, ?_, ?_⟩
  · intro h; rw [if_pos h]
  · intro h; rw [if_neg (not_not_intro h)]
  · intro h0 h50
    refine ⟨by rw [if_neg (not_not_intro h0)], by rw [h0, h50]; norm_num, ?_⟩
    rw [h0, h50]
    unfold check_alert
    rw [if_pos (by norm_num)]

/-- C3 witness: a concrete group whose baseline is zero while the analysis
date cost is 50. -/
theorem C3_zero_baseline_safety_witness :
    ∃ r ∈ process_costs [("g", [(0, 50)])] (ymd2ord 2024 1 8) (ymd2ord 2024 1 8) 0,
      r.percentVariation = 0 ∧ r.costDifference = 50 ∧ r.alert = "Yes" := by
  have hcls : ¬ (5 ≤ weekdayOfYYYYMMDD 0) := by decide
  have hwin : windowDays (ymd2ord 2024 1 8) (ymd2ord 2024 1 8) = [ymd2ord 2024 1 8] := by
    decide
  have hdi : dateInt (ymd2ord 2024 1 8) = 20240108 := by decide
  have hmem : ∀ r ∈ process_costs [("g", [(0, 50)])] (ymd2ord 2024 1 8) (ymd2ord 2024 1 8) 0,
      r.averageCost = 0 ∧ r.analysisDateCost = 50 := by
    intro r hr
    unfold process_costs at hr
    rw [List.mem_map] at hr
    obtain ⟨g, hg, rfl⟩ := hr
    rw [List.mem_singleton] at hg
    subst hg
    dsimp only
    rw [hwin]
    constructor
    · have hmon : isWeekendOrd (ymd2ord 2024 1 8) = false := by decide
      rw [if_neg hcls, if_neg hcls]
      simp [splitCosts, hdi, lookupCost, List.find?, hmon]
    · simp [lookupCost, List.find?]
  obtain ⟨r, hr⟩ : ∃ r, r ∈ process_costs [("g", [(0, 50)])]
      (ymd2ord 2024 1 8) (ymd2ord 2024 1 8) 0 := by
    unfold process_costs
    exact ⟨_, List.mem_map_of_mem _ (List.mem_singleton_self _)⟩
  obtain ⟨h0, h50⟩ := hmem r hr
  exact ⟨r, hr, (C3_zero_baseline_safety _ _ _ _ r hr).2.2.2 h0 h50⟩

theorem foldl_skip {α β : Type} (p : α → Bool) (f : β → α → β)
    (hf : ∀ b x, p x = false → f b x = b) :
    ∀ (l : List α) (init : β), l.foldl f init = (l.filter p).foldl f init := by
  intro l
  induction l with
  | nil => intro init; rfl
  | cons x xs ih =>
      intro init
      rw [List.foldl_cons, List.filter_cons]
      cases hx : p x with
      | true => rw [if_pos rfl, List.foldl_cons, ih]
      | false => rw [if_neg (by simp), hf init x hx, ih]

/-- C4: in tag mode, a row whose tag value is empty or absent creates no
group key and joins no series and no analysis-date total: buildTags gives
the same dict and total as on the truthy-filtered rows, and when every row
is falsy it gives no groups and a zero total. -/
theorem C4_tag_value_filtering (rows : List TagRow) (a : Int) :
    buildTags rows a = buildTags (rows.filter (fun r => truthyTag r.tagValue)) a ∧
    ((∀ r ∈ rows, truthyTag r.tagValue = false) → buildTags rows a = ([], 0)) := by
  have key : buildTags rows a
      = buildTags (rows.filter (fun r => truthyTag r.tagValue)) a := by
    unfold buildTags
    refine foldl_skip (fun r => truthyTag r.tagValue) _ ?_ rows _
    intro b x hx
    simp [hx]
  refine ⟨key, fun hall => ?_⟩
  rw [key]
  have hnil : rows.filter (fun r => truthyTag r.tagValue) = [] := by
    rw [List.filter_eq_nil_iff]
    intro r hr
    simp [hall r hr]
  rw [hnil]
  rfl

/-- C4 witness: two rows, one with an empty tag value and one with a missing
tag value, build nothing. -/
theorem C4_tag_value_filtering_witness :
    buildTags [⟨10, 20240108, some ""⟩, ⟨20, 20240108, none⟩] 20240108 = ([], 0) :=
  (C4_tag_value_filtering [⟨10, 20240108, some ""⟩, ⟨20, 20240108, none⟩] 20240108).2
    (by decide)

theorem aggregate_spec_snd (costs : List (Int × ℚ)) (s e : Int) (wc : Bool) :
    (aggregate_spec costs s e wc).2 = (matchingClassDays s e wc).length := by
  unfold aggregate_spec
  dsimp only
  split_ifs with h
  · exact h.symm
  · rfl

theorem process_costs_days_map (G : List (String × List (Int × ℚ))) (s e a : Int) :
    (process_costs G s e a).map (fun r => r.numberOfDays)
      = G.map (fun _ => (matchingClassDays s e (decide (5 ≤ weekdayOfYYYYMMDD a))).length) := by
  have h := congrArg (List.map Prod.snd) (process_costs_avg_days G s e a)
  rw [List.map_map, List.map_map] at h
  calc (process_costs G s e a).map (fun r => r.numberOfDays)
      = (process_costs G s e a).map
          (Prod.snd ∘ fun r => (r.averageCost, (r.numberOfDays : Nat))) := rfl
    _ = G.map (Prod.snd ∘ fun g =>
          aggregate_spec g.2 s e (decide (5 ≤ weekdayOfYYYYMMDD a))) := h
    _ = G.map (fun _ => (matchingClassDays s e (decide (5 ≤ weekdayOfYYYYMMDD a))).length) :=
        List.map_congr_left (fun g _ => aggregate_spec_snd g.2 s e _)

theorem matchingClassDays_pos (s e : Int) (wc : Bool) (h : 6 ≤ e - s) :
    0 < (matchingClassDays s e wc).length := by
  unfold matchingClassDays
  have hex : ∃ d ∈ windowDays s e, (isWeekendOrd d == wc) = true := by
    cases wc with
    | true =>
        refine ⟨s + (6 - s) % 7, ?_, ?_⟩
        · rw [mem_windowDays]
          constructor <;> omega
        · unfold isWeekendOrd pyWeekday
          simp only [beq_true, decide_eq_true_eq]
          omega
    | false =>
        refine ⟨s + (1 - s) % 7, ?_, ?_⟩
        · rw [mem_windowDays]
          constructor <;> omega
        · unfold isWeekendOrd pyWeekday
          simp only [beq_false, Bool.not_eq_true', decide_eq_false_iff_not]
          omega
  obtain ⟨d, hd, hdc⟩ := hex
  exact List.length_pos_of_mem (List.mem_filter.mpr ⟨hd, hdc⟩)

/-- C9 (implicit): in weekday-restricted mode, days_counted depends only on
the window boundaries and the analysis date's class: it equals the count of
matching-class calendar days of the inclusive window whatever the series
holds, and in any window of at least 7 calendar days that count is
positive, so the no-matching-days fallback cannot run. -/
theorem C9_days_counted_window_only (k k2 : String) (costs costs2 : List (Int × ℚ))
    (s e a : Int) (h : 6 ≤ e - s) :
    ((process_costs [(k, costs)] s e a).map (fun r => r.numberOfDays)
       = [(matchingClassDays s e (decide (5 ≤ weekdayOfYYYYMMDD a))).length]) ∧
    ((process_costs [(k, costs)] s e a).map (fun r => r.numberOfDays)
       = (process_costs [(k2, costs2)] s e a).map (fun r => r.numberOfDays)) ∧
    0 < (matchingClassDays s e (decide (5 ≤ weekdayOfYYYYMMDD a))).length := by
  refine ⟨?_, ?_, matchingClassDays_pos s e _ h⟩
  · rw [process_costs_days_map]
    rfl
  · rw [process_costs_days_map, process_costs_days_map]
    rfl

/-- C9 witness: a 7-day window ending on a Monday, with an empty series and
a nonempty one. -/
theorem C9_days_counted_window_only_witness :
    ((process_costs [("g", [])] (ymd2ord 2024 1 2) (ymd2ord 2024 1 8) 20240108).map
        (fun r => r.numberOfDays)
       = [(matchingClassDays (ymd2ord 2024 1 2) (ymd2ord 2024 1 8)
            (decide (5 ≤ weekdayOfYYYYMMDD 20240108))).length]) ∧
    0 < (matchingClassDays (ymd2ord 2024 1 2) (ymd2ord 2024 1 8)
          (decide (5 ≤ weekdayOfYYYYMMDD 20240108))).length :=
  ⟨(C9_days_counted_window_only "g" "h" [] [(20240108, 7)]
      (ymd2ord 2024 1 2) (ymd2ord 2024 1 8) 20240108 (by decide)).1,
   (C9_days_counted_window_only "g" "h" [] [(20240108, 7)]
      (ymd2ord 2024 1 2) (ymd2ord 2024 1 8) 20240108 (by decide)).2.2⟩

/-- C10 (implicit): analyze_costs evaluates every group at the analysis key
dateInt end_date, so the analysis date is end_date itself; the weekend
class process_costs derives from that key is exactly end_date's own class;
end_date belongs to the matching-class day list whenever
start_date <= end_date; and the matching-day cost total decomposes as the
analysis date's own looked-up cost plus the remaining days' sum. -/
theorem C10_analysis_date_in_baseline (rows : List CostRow) (costs : List (Int × ℚ))
    (s e : Int) (h1 : 1 ≤ e) (hse : s ≤ e) :
    (analyze_costs_rows rows s e
      = (process_costs (buildGroups rows) s e (dateInt e), totalOnDate rows (dateInt e))) ∧
    ((5 ≤ weekdayOfYYYYMMDD (dateInt e)) ↔ (5 ≤ pyWeekday e)) ∧
    e ∈ matchingClassDays s e (decide (5 ≤ weekdayOfYYYYMMDD (dateInt e))) ∧
    ((matchingClassDays s e (decide (5 ≤ weekdayOfYYYYMMDD (dateInt e)))).map
        (fun day => lookupCost costs (dateInt day))).sum
      = lookupCost costs (dateInt e) +
        (((matchingClassDays s e (decide (5 ≤ weekdayOfYYYYMMDD (dateInt e)))).erase e).map
          (fun day => lookupCost costs (dateInt day))).sum := by
  have hw := weekday_of_dateInt e h1
  have hmem : e ∈ matchingClassDays s e (decide (5 ≤ weekdayOfYYYYMMDD (dateInt e))) := by
    unfold matchingClassDays
    rw [List.mem_filter]
    refine ⟨(mem_windowDays s e e).mpr ⟨hse, le_refl e⟩, ?_⟩
    unfold isWeekendOrd
    rw [hw]
    exact beq_self_eq_true _
  refine ⟨rfl, by rw [hw], hmem, ?_⟩
  have hperm := (List.perm_cons_erase hmem).map (fun day => lookupCost costs (dateInt day))
  rw [hperm.sum_eq, List.map_cons, List.sum_cons]

/-- C10 witness: the 2024-01-08 analysis date inside its own 31-day-back
window. -/
theorem C10_analysis_date_in_baseline_witness :
    ymd2ord 2024 1 8 ∈ matchingClassDays (ymd2ord 2024 1 8 - 31) (ymd2ord 2024 1 8)
      (decide (5 ≤ weekdayOfYYYYMMDD (dateInt (ymd2ord 2024 1 8)))) :=
  (C10_analysis_date_in_baseline [] [] (ymd2ord 2024 1 8 - 31) (ymd2ord 2024 1 8)
    (by decide) (by decide)).2.2.1

/-- C5 counterexample: on a series holding two observations with the same
date, the windowed aggregator of utils.py produces exactly the result it
produces on the deduplicated series, and its baseline average is the first
value 10, not a mean inflated by the duplicate: the duplicate is ignored,
not treated as a distinct data point. -/
theorem C5_duplicates_counterexample :
    process_costs [("g", [(20240108, 10), (20240108, 1000)])]
        (ymd2ord 2024 1 8) (ymd2ord 2024 1 8) 20240108
      = process_costs [("g", [(20240108, 10)])]
        (ymd2ord 2024 1 8) (ymd2ord 2024 1 8) 20240108 ∧
    (process_costs [("g", [(20240108, 10), (20240108, 1000)])]
        (ymd2ord 2024 1 8) (ymd2ord 2024 1 8) 20240108).map (fun r => r.averageCost)
      = [10] := by
  have hcls : ¬ (5 ≤ weekdayOfYYYYMMDD 20240108) := by decide
  have hwin : windowDays (ymd2ord 2024 1 8) (ymd2ord 2024 1 8) = [ymd2ord 2024 1 8] := by
    decide
  have hdi : dateInt (ymd2ord 2024 1 8) = 20240108 := by decide
  have hmon : isWeekendOrd (ymd2ord 2024 1 8) = false := by decide
  constructor <;>
    simp [process_costs, hwin, hdi, hmon, hcls, splitCosts, lookupCost, List.find?]

/-- C5 amended: the simple-mean aggregator of data_processing_utils does
treat every observation, duplicates included, as a separate data point (its
baseline is the sum of all cost values over the observation count), while
the windowed aggregator of utils.py looks each calendar day up with a
first-match rule, so an observation after the first with the same date is
never read. -/
theorem C5_duplicates_amended (k : String) (costs : List (Int × ℚ)) (a : Int)
    (hne : costs ≠ []) (d0 : Int) (c0 : ℚ) (post : List (Int × ℚ)) :
    ((dpu_process_costs [(k, costs)] a).map (fun r => r.averageCost)
       = [(costs.map (fun p => p.2)).sum / (costs.length : ℚ)]) ∧
    lookupCost ((d0, c0) :: post) d0 = c0 := by
  constructor
  · simp [dpu_process_costs, statistics_mean]
  · unfold lookupCost
    rw [List.find?_cons_of_pos _ (by simp)]

/-- C5 amended witness: the duplicate-date series drives the simple mean to
505 while the first-match lookup still gives 10. -/
theorem C5_duplicates_amended_witness :
    ((dpu_process_costs [("g", [(20240108, 10), (20240108, 1000)])] 20240108).map
        (fun r => r.averageCost) = [505]) ∧
    lookupCost [(20240108, 10), (20240108, 1000)] 20240108 = 10 := by
  have h := C5_duplicates_amended "g" [(20240108, 10), (20240108, 1000)] 20240108
    (by decide) 20240108 10 [(20240108, 1000)]
  refine ⟨?_, h.2⟩
  rw [h.1]
  norm_num

/-- C6 counterexample: on a single-observation series dated at the analysis
date, whole-subscription mode reports baseline 100 with no alert, while the
per-group path on the identical single-group series reports baseline 20
with an alert: the two paths do not agree. -/
theorem C6_subs_mode_counterexample :
    ((analyze_costs_by_subs_rows "S" [(20240108, 100)]
        (ymd2ord 2024 1 2) (ymd2ord 2024 1 8)).averageCost = 100 ∧
     (analyze_costs_by_subs_rows "S" [(20240108, 100)]
        (ymd2ord 2024 1 2) (ymd2ord 2024 1 8)).alert = "No") ∧
    (process_costs [("S", [(20240108, 100)])] (ymd2ord 2024 1 2) (ymd2ord 2024 1 8)
        (dateInt (ymd2ord 2024 1 8))).map (fun r => (r.averageCost, r.alert))
      = [(20, "Yes")] := by
  have hs2 : ymd2ord 2024 1 2 = 738887 := by decide
  have hs8 : ymd2ord 2024 1 8 = 738893 := by decide
  have hdi : dateInt 738893 = 20240108 := by decide
  have hcls : ¬ (5 ≤ weekdayOfYYYYMMDD 20240108) := by decide
  have hsplit : splitCosts [(20240108, (100:ℚ))] (windowDays 738887 738893)
      = ([0, 0, 0, 0, 100], [0, 0]) := by decide
  rw [hs2, hs8, hdi]
  refine ⟨⟨?_, ?_⟩, ?_⟩
  · simp [analyze_costs_by_subs_rows, hdi, lookupCost, List.find?]
  · simp [analyze_costs_by_subs_rows, hdi, lookupCost, List.find?, check_alert]
  · simp [process_costs, hsplit, hcls, hdi, lookupCost, List.find?, check_alert]
    norm_num

/-- C6 amended: whole-subscription mode applies the same alert, percent
variation and cost difference formulas (the shared check_alert with the
0.01 epsilon and the guarded percentage) to the aggregate series, but its
baseline is the plain mean over the raw observation list, with days counted
as the number of rows, not the weekday-restricted zero-filled calendar mean
of the per-group path; the two paths agree only when those baselines do. -/
theorem C6_subs_simple_mean_amended (name : String) (rows : List (Int × ℚ)) (s e : Int) :
    analyze_costs_by_subs_rows name rows s e =
      { groupValue := name
        averageCost :=
          if 0 < rows.length then (rows.map (fun p => p.2)).sum / (rows.length : ℚ) else 0
        analysisDateCost := lookupCost rows (dateInt e)
        alert := check_alert (lookupCost rows (dateInt e))
          (if 0 < rows.length then (rows.map (fun p => p.2)).sum / (rows.length : ℚ) else 0)
        percentVariation :=
          if (if 0 < rows.length then (rows.map (fun p => p.2)).sum / (rows.length : ℚ) else 0)
              ≠ 0 then
            ((lookupCost rows (dateInt e) -
              (if 0 < rows.length then (rows.map (fun p => p.2)).sum / (rows.length : ℚ) else 0))
             / (if 0 < rows.length then (rows.map (fun p => p.2)).sum / (rows.length : ℚ) else 0))
              * 100
          else 0
        costDifference := lookupCost rows (dateInt e) -
          (if 0 < rows.length then (rows.map (fun p => p.2)).sum / (rows.length : ℚ) else 0)
        numberOfDays := rows.length
        analysisDate := e } := rfl

/-- C7: a response without properties.rows makes request_and_process return
the tuple (None, 0); the caller's `data is None` test is false on that
tuple, and subscripting it with 'properties' raises TypeError, so the run
crashes instead of producing the documented "No Cost Found" outcome; an
empty rows list, by contrast, does reach "No Cost Found" with a zero total
and no records. -/
theorem C7_missing_rows_crashes (s e : Int) :
    analyze_costs_outcome ApiResponse.missingRows s e = AnalyzeOutcome.typeError ∧
    analyze_costs_outcome (ApiResponse.withRows []) s e = AnalyzeOutcome.noCostFound 0 ∧
    request_and_process ApiResponse.missingRows = RequestAndProcessReturn.pairNoneZero ∧
    pyIsNone RequestAndProcessReturn.pairNoneZero = false :=
  ⟨rfl, rfl, rfl, rfl⟩

/-- C8: with an explicit date string the timeframe is (parsed - period,
parsed) and an unparsable string fails; with no date string the end date is
the UTC clock date minus one (never the clock date itself) and the start
date is period days before it. -/
theorem C8_timeframe_resolution (p clock : Int) (str : String) :
    (get_analysis_timeframe none p clock = some (clock - 1 - p, clock - 1) ∧
      clock - 1 ≠ clock) ∧
    (∀ e0, strptime_iso str = some e0 →
      get_analysis_timeframe (some str) p clock = some (e0 - p, e0)) ∧
    (strptime_iso str = none → get_analysis_timeframe (some str) p clock = none) := by
  refine ⟨⟨rfl, by omega⟩, ?_, ?_⟩
  · intro e0 he
    simp [get_analysis_timeframe, he]
  · intro he
    simp [get_analysis_timeframe, he]

/-- C8 witness: a canonical date string, an invalid month, and the default
clock path. -/
theorem C8_timeframe_resolution_witness :
    get_analysis_timeframe (some "2024-05-10") 31 0
      = some (ymd2ord 2024 5 10 - 31, ymd2ord 2024 5 10) ∧
    get_analysis_timeframe (some "2024-13-01") 31 0 = none ∧
    get_analysis_timeframe none 31 800 = some (768, 799) :=
  ⟨(C8_timeframe_resolution 31 0 "2024-05-10").2.1 (ymd2ord 2024 5 10) (by decide),
   (C8_timeframe_resolution 31 0 "2024-13-01").2.2 (by decide),
   (C8_timeframe_resolution 31 800 "x").1.1⟩
